import Mathlib

/-
  Verification development for the DefectDojo CI/CD integration layer
  (defect_dojo_api.py and evalution.py).

  The HTTP transport is modelled as an oracle (`World.http`) mapping each
  request the code can issue to either a response or a transport exception,
  mirroring the `requests` library surface the code consumes.  Every
  translated function returns an `Outcome`: the Python return value (or a
  propagating exception) together with the list of HTTP requests issued and
  the warning/error log events the development reasons about.
-/

namespace DefectDojo

/-- JSON values as exchanged with the DefectDojo HTTP API. -/
inductive Json where
  | null
  | bool (b : Bool)
  | num (n : Int)
  | str (s : String)
  | arr (elems : List Json)
  | obj (fields : List (String × Json))

/-- Python truthiness on JSON values: None, False, 0, empty string, empty
list and empty dict are falsy, everything else is truthy. -/
def Json.pyFalsy : Json → Bool
  | .null => true
  | .bool b => !b
  | .num n => n == 0
  | .str s => s == ""
  | .arr elems => elems.isEmpty
  | .obj fields => fields.isEmpty

/-- First binding of a key in an association list of JSON object fields. -/
def lookupField : List (String × Json) → String → Option Json
  | [], _ => none
  | (k, v) :: rest, key => if k == key then some v else lookupField rest key

/-- Python `d.get(key)`: the value bound to the key, if the value is a dict
holding it.  Indexing a non-dict returns none (the sources only index
dicts). -/
def Json.get : Json → String → Option Json
  | .obj fields, key => lookupField fields key
  | _, _ => none

/-- Python `d.get(key, default)`. -/
def Json.getD (j : Json) (key : String) (d : Json) : Json :=
  match j.get key with
  | some v => v
  | none => d

/-- Read a string field with `""` as default, mirroring `d.get(key, '')`.
The sources only read string-valued name fields. -/
def getStr (j : Json) (key : String) : String :=
  match j.get key with
  | some (.str s) => s
  | _ => ""

/-- Read the numeric `id` field of a record, mirroring `rec.get('id')`;
ids returned by the service are numbers. -/
def getId (j : Json) : Option Int :=
  match j.get "id" with
  | some (.num n) => some n
  | _ => none

/-- Python `str.isdigit` for ASCII strings: nonempty and all digits. -/
def isdigit (s : String) : Bool :=
  !s.isEmpty && s.toList.all Char.isDigit

/-- Python `int(s)` on an all-digits string: its decimal value. -/
def strToInt (s : String) : Int :=
  ((s.toList.foldl (fun a c => 10 * a + (c.toNat - 48)) 0 : Nat) : Int)

/-- Python `str.lower` (the sources only lower-case ASCII names). -/
def pyLower (s : String) : String :=
  String.mk (s.toList.map Char.toLower)

/-- Helper for the Python substring test `needle in hay`. -/
def strContainsAux : List Char → List Char → Bool
  | [], needle => needle.isEmpty
  | h :: t, needle => needle.isPrefixOf (h :: t) || strContainsAux t needle

/-- Python substring containment `needle in hay`. -/
def strContains (hay needle : String) : Bool :=
  strContainsAux hay.toList needle.toList

/-- A duck-typed name-or-id parameter: the Python code accepts either an
integer or a string in the same position. -/
inductive StrOrInt where
  | int (n : Int)
  | str (s : String)

/-- Python f-string interpolation of a name-or-id value. -/
def StrOrInt.format : StrOrInt → String
  | .int n => toString n
  | .str s => s

/-- A name-or-id value placed into a JSON payload as-is. -/
def StrOrInt.toJson : StrOrInt → Json
  | .int n => .num n
  | .str s => .str s

/-- Python truthiness of an optional JSON value (None is falsy). -/
def pyFalsyOptJson : Option Json → Bool
  | none => true
  | some j => j.pyFalsy

/-- Python truthiness of an optional string (None and empty are falsy). -/
def pyFalsyOptStr : Option String → Bool
  | none => true
  | some s => s == ""

/-- Python truthiness of an optional integer (None and 0 are falsy). -/
def pyFalsyOptInt : Option Int → Bool
  | none => true
  | some n => n == 0

/-- An HTTP response as seen through the `requests` library: status code,
raw text, and the result of `response.json()` (`none` models a body that
does not parse as JSON). -/
structure HttpResponse where
  status : Nat
  text : String
  body : Option Json

/-- Result of one HTTP call: a response, or a raised
`requests.exceptions.RequestException`. -/
inductive HttpResult where
  | ok (r : HttpResponse)
  | exn (msg : String)

/-- The HTTP requests the translated functions can issue. -/
inductive Request where
  | getEnvironments
  | getTestTypes
  | getEngagement (engagement_id : Int)
  | getProduct (product_id : Json)
  | postTest (data : List (String × Json))
  | postImportScan (data : List (String × Json)) (filePath : String) (fileHandle : Nat)
  | getFindings (params : List (String × Json))

/-- The warning and error log calls the development reasons about.
Info and debug level logging is not modelled. -/
inductive LogEvent where
  | envFallback (requested : String) (usedName : String) (usedId : Option Int)
  | envNotFound (environment : StrOrInt)
  | testTypeNotFound (test_type_name : String)
  | reportFileMissing (path : String)
  | uploadExn (msg : String)
  | uploadFailed

/-- The external world a run interacts with: the HTTP oracle, the local
file system check used by `os.path.isfile`, and the current date used by
`datetime.datetime.now().strftime`. -/
structure World where
  http : Request → HttpResult
  isfile : String → Bool
  today : String

/-- Result of running a translated function: the Python return value or a
propagating exception, the HTTP requests issued, and the log events
emitted. -/
structure Outcome (α : Type) where
  result : Except String α
  trace : List Request
  events : List LogEvent

/-- Mirrors the list-endpoint body handling:
`data['results']` when the parsed body is a dict with a *results* key,
otherwise the body itself when it is already a list.  Other body shapes
would make the subsequent Python iteration fail; the claims only concern
list-shaped payloads, modelled as the empty list. -/
def resultsList (j : Json) : List Json :=
  match j with
  | .obj fields =>
    match lookupField fields "results" with
    | some (.arr xs) => xs
    | some _ => []
    | none => []
  | .arr xs => xs
  | _ => []

/-- `DefectDojoAPI.get_environments`: GET the development environments
list; non-200 status or an unparseable body yields the empty list; a
transport exception propagates (the call is not wrapped in try). -/
def get_environments (w : World) : Outcome (List Json) :=
  match w.http Request.getEnvironments with
  | .exn e => ⟨.error e, [Request.getEnvironments], []⟩
  | .ok r =>
    if r.status == 200 then
      match r.body with
      | none => ⟨.ok [], [Request.getEnvironments], []⟩
      | some j => ⟨.ok (resultsList j), [Request.getEnvironments], []⟩
    else ⟨.ok [], [Request.getEnvironments], []⟩

/-- `DefectDojoAPI.get_test_types`: same shape as `get_environments` for
the test types endpoint. -/
def get_test_types (w : World) : Outcome (List Json) :=
  match w.http Request.getTestTypes with
  | .exn e => ⟨.error e, [Request.getTestTypes], []⟩
  | .ok r =>
    if r.status == 200 then
      match r.body with
      | none => ⟨.ok [], [Request.getTestTypes], []⟩
      | some j => ⟨.ok (resultsList j), [Request.getTestTypes], []⟩
    else ⟨.ok [], [Request.getTestTypes], []⟩

/-- `DefectDojoAPI.get_environment_id`: an integer or all-digits string is
returned as its integer value without any lookup; otherwise the
environments are listed and matched case-insensitively on name; on a miss
with a nonempty list the first environment is used with a warning; an
empty list yields None. -/
def get_environment_id (w : World) (environment_name_or_id : StrOrInt) :
    Outcome (Option Int) :=
  match environment_name_or_id with
  | .int n => ⟨.ok (some n), [], []⟩
  | .str s =>
    if isdigit s then ⟨.ok (some (strToInt s)), [], []⟩
    else
      let o := get_environments w
      match o.result with
      | .error e => ⟨.error e, o.trace, o.events⟩
      | .ok environments =>
        match environments.find? (fun env => pyLower (getStr env "name") == pyLower s) with
        | some env => ⟨.ok (getId env), o.trace, o.events⟩
        | none =>
          match environments with
          | [] => ⟨.ok none, o.trace, o.events⟩
          | env0 :: _ =>
            ⟨.ok (getId env0), o.trace,
             o.events ++ [LogEvent.envFallback s (getStr env0 "name") (getId env0)]⟩

/-- `DefectDojoAPI._get_test_type_id` (the leading underscore is dropped):
lists the test types and returns the id of the first case-insensitive name
match, or None when there is no match.  The source indexes
`test_type['name']` directly; names are assumed present. -/
def get_test_type_id (w : World) (test_type_name : String) : Outcome (Option Int) :=
  let o := get_test_types w
  match o.result with
  | .error e => ⟨.error e, o.trace, o.events⟩
  | .ok test_types =>
    match test_types.find? (fun tt => pyLower (getStr tt "name") == pyLower test_type_name) with
    | some tt => ⟨.ok (getId tt), o.trace, o.events⟩
    | none => ⟨.ok none, o.trace, o.events⟩

/-- `DefectDojoAPI.get_engagement`: single-resource GET; 200 yields the
parsed body, other statuses yield None; a transport exception
propagates. -/
def get_engagement (w : World) (engagement_id : Int) : Outcome (Option Json) :=
  match w.http (Request.getEngagement engagement_id) with
  | .exn e => ⟨.error e, [Request.getEngagement engagement_id], []⟩
  | .ok r =>
    if r.status == 200 then
      match r.body with
      | some j => ⟨.ok (some j), [Request.getEngagement engagement_id], []⟩
      | none => ⟨.error "JSONDecodeError", [Request.getEngagement engagement_id], []⟩
    else ⟨.ok none, [Request.getEngagement engagement_id], []⟩

/-- `DefectDojoAPI.get_product`: single-resource GET with the same shape
as `get_engagement`. -/
def get_product (w : World) (product_id : Json) : Outcome (Option Json) :=
  match w.http (Request.getProduct product_id) with
  | .exn e => ⟨.error e, [Request.getProduct product_id], []⟩
  | .ok r =>
    if r.status == 200 then
      match r.body with
      | some j => ⟨.ok (some j), [Request.getProduct product_id], []⟩
      | none => ⟨.error "JSONDecodeError", [Request.getProduct product_id], []⟩
    else ⟨.ok none, [Request.getProduct product_id], []⟩

/-- `DefectDojoAPI.get_product_from_engagement`: the *product* field of
the engagement, when the engagement was retrieved and holds that key. -/
def get_product_from_engagement (w : World) (engagement_id : Int) :
    Outcome (Option Json) :=
  let o := get_engagement w engagement_id
  match o.result with
  | .error e => ⟨.error e, o.trace, o.events⟩
  | .ok none => ⟨.ok none, o.trace, o.events⟩
  | .ok (some eng) =>
    if !eng.pyFalsy then
      match eng.get "product" with
      | some v => ⟨.ok (some v), o.trace, o.events⟩
      | none => ⟨.ok none, o.trace, o.events⟩
    else ⟨.ok none, o.trace, o.events⟩

/-- `DefectDojoAPI.create_test`: resolves the test type (a non-digit
string is looked up by name, anything else is used as-is) and the
environment, fails with None when either resolution yields a falsy value,
then POSTs the test payload; only a 201 status returns the created
record.  The POST is not wrapped in try, so a transport exception
propagates. -/
def create_test (w : World) (engagement_id : Int) (test_type : StrOrInt)
    (environment : StrOrInt) (target_start : String)
    (target_end : Option String) (title : Option String) : Outcome (Option Json) :=
  let target_end_v := match target_end with
    | none => target_start
    | some s => if s == "" then target_start else s
  let title_v := match title with
    | none => test_type.format ++ " test on " ++ target_start
    | some s => if s == "" then test_type.format ++ " test on " ++ target_start else s
  let ttOutcome : Outcome (Option Json) :=
    match test_type with
    | .str s =>
      if !(isdigit s) then
        let o := get_test_type_id w s
        match o.result with
        | .error e => ⟨.error e, o.trace, o.events⟩
        | .ok none => ⟨.ok none, o.trace, o.events ++ [LogEvent.testTypeNotFound s]⟩
        | .ok (some n) =>
          if n == 0 then ⟨.ok none, o.trace, o.events ++ [LogEvent.testTypeNotFound s]⟩
          else ⟨.ok (some (Json.num n)), o.trace, o.events⟩
      else ⟨.ok (some (StrOrInt.toJson test_type)), [], []⟩
    | .int _ => ⟨.ok (some (StrOrInt.toJson test_type)), [], []⟩
  match ttOutcome.result with
  | .error e => ⟨.error e, ttOutcome.trace, ttOutcome.events⟩
  | .ok none => ⟨.ok none, ttOutcome.trace, ttOutcome.events⟩
  | .ok (some test_type_id) =>
    let eo := get_environment_id w environment
    match eo.result with
    | .error e => ⟨.error e, ttOutcome.trace ++ eo.trace, ttOutcome.events ++ eo.events⟩
    | .ok environment_id =>
      match environment_id with
      | none =>
        ⟨.ok none, ttOutcome.trace ++ eo.trace,
         ttOutcome.events ++ eo.events ++ [LogEvent.envNotFound environment]⟩
      | some envId =>
        if envId == 0 then
          ⟨.ok none, ttOutcome.trace ++ eo.trace,
           ttOutcome.events ++ eo.events ++ [LogEvent.envNotFound environment]⟩
        else
          let data := [("engagement", Json.num engagement_id),
                       ("test_type", test_type_id),
                       ("environment", Json.num envId),
                       ("target_start", Json.str target_start),
                       ("target_end", Json.str target_end_v),
                       ("title", Json.str title_v)]
          let res : Except String (Option Json) :=
            match w.http (Request.postTest data) with
            | .exn e => .error e
            | .ok r =>
              if r.status == 201 then
                match r.body with
                | some j => .ok (some j)
                | none => .error "JSONDecodeError"
              else .ok none
          ⟨res, ttOutcome.trace ++ eo.trace ++ [Request.postTest data],
           ttOutcome.events ++ eo.events⟩

/-- `DefectDojoAPI.upload_findings`: checks the report file, optionally
enriches the product id and name from the engagement, POSTs the multipart
payload, and on a failure whose text holds the missing-product-name marker
while no product name is set retries exactly once with the scan type as
product name over a re-opened file (file handle 2).  Transport exceptions
from the two POSTs are caught and yield None; the enrichment GETs are
outside the try block, so their transport exceptions propagate. -/
def upload_findings (w : World) (test_id : Json) (report_file : String)
    (scan_type : String) (close_old_findings : Bool) (push_to_jira : Bool)
    (engagement_id : Option Int) (product_id : Option Int)
    (product_name : Option String) : Outcome (Option Json) :=
  if !(w.isfile report_file) then
    ⟨.ok none, [], [LogEvent.reportFileMissing report_file]⟩
  else
    let pidJ : Option Json := product_id.map Json.num
    let pnameJ : Option Json := product_name.map Json.str
    let enr : Outcome (Option Json × Option Json) :=
      match engagement_id with
      | none => ⟨.ok (pidJ, pnameJ), [], []⟩
      | some eid =>
        if eid != 0 && pyFalsyOptJson pidJ && pyFalsyOptJson pnameJ then
          let o1 := get_product_from_engagement w eid
          match o1.result with
          | .error e => ⟨.error e, o1.trace, o1.events⟩
          | .ok none => ⟨.ok (none, pnameJ), o1.trace, o1.events⟩
          | .ok (some pj) =>
            if pj.pyFalsy then ⟨.ok (some pj, pnameJ), o1.trace, o1.events⟩
            else
              let o2 := get_product w pj
              match o2.result with
              | .error e => ⟨.error e, o1.trace ++ o2.trace, o1.events ++ o2.events⟩
              | .ok prodOpt =>
                let pname2 : Option Json :=
                  match prodOpt with
                  | some p =>
                    if !p.pyFalsy then
                      match p.get "name" with
                      | some nv => some nv
                      | none => pnameJ
                    else pnameJ
                  | none => pnameJ
                ⟨.ok (some pj, pname2), o1.trace ++ o2.trace, o1.events ++ o2.events⟩
        else ⟨.ok (pidJ, pnameJ), [], []⟩
    match enr.result with
    | .error e => ⟨.error e, enr.trace, enr.events⟩
    | .ok (pid2, pname2) =>
      let data0 := [("scan_type", Json.str scan_type), ("test", test_id),
                    ("active", Json.bool true), ("verified", Json.bool false),
                    ("close_old_findings", Json.bool close_old_findings),
                    ("push_to_jira", Json.bool push_to_jira)]
      let data1 := data0 ++ (match pid2 with
        | some pj => if !pj.pyFalsy then [("product_id", pj)] else []
        | none => [])
      let data := data1 ++ (match pname2 with
        | some nv => if !nv.pyFalsy then [("product_name", nv)] else []
        | none => [])
      let req1 := Request.postImportScan data report_file 1
      match w.http req1 with
      | .exn e =>
        ⟨.ok none, enr.trace ++ [req1],
         enr.events ++ [LogEvent.uploadExn e, LogEvent.uploadFailed]⟩
      | .ok r =>
        if r.status == 200 || r.status == 201 then
          match r.body with
          | some j => ⟨.ok (some j), enr.trace ++ [req1], enr.events⟩
          | none => ⟨.error "JSONDecodeError", enr.trace ++ [req1], enr.events⟩
        else
          if strContains r.text "product_name parameter missing" && pyFalsyOptJson pname2 then
            let data2 := data ++ [("product_name", Json.str scan_type)]
            let req2 := Request.postImportScan data2 report_file 2
            match w.http req2 with
            | .exn e =>
              ⟨.ok none, enr.trace ++ [req1, req2],
               enr.events ++ [LogEvent.uploadExn e, LogEvent.uploadFailed]⟩
            | .ok r2 =>
              if r2.status == 200 || r2.status == 201 then
                match r2.body with
                | some j => ⟨.ok (some j), enr.trace ++ [req1, req2], enr.events⟩
                | none => ⟨.error "JSONDecodeError", enr.trace ++ [req1, req2], enr.events⟩
              else
                ⟨.ok none, enr.trace ++ [req1, req2], enr.events ++ [LogEvent.uploadFailed]⟩
          else
            ⟨.ok none, enr.trace ++ [req1], enr.events ++ [LogEvent.uploadFailed]⟩

/-- The dictionary returned by `DefectDojoAPI.scan_and_import`; `none` in
an optional field means the key is absent from the returned dict. -/
structure ScanImportResult where
  success : Bool
  test_id : Option Json
  import_id : Option Json
  message : String
  test_title : Option Json

/-- `DefectDojoAPI.scan_and_import`: composes the title, creates the test,
and uploads the findings, returning a structured result dict.  A falsy
`create_test` result short-circuits with a failure result without a
test_id key. -/
def scan_and_import (w : World) (engagement_id : Int) (test_type : StrOrInt)
    (report_file : String) (scan_type : String) (environment : StrOrInt)
    (close_old_findings : Bool) (push_to_jira : Bool)
    (build_id : Option String) (branch_name : Option String)
    (product_id : Option Int) (product_name : Option String) :
    Outcome ScanImportResult :=
  let title0 := test_type.format ++ " scan"
  let title1 := match build_id with
    | some b => if b == "" then title0 else title0 ++ " - Build #" ++ b
    | none => title0
  let title := match branch_name with
    | some b => if b == "" then title1 else title1 ++ " - Branch: " ++ b
    | none => title1
  let cto := create_test w engagement_id test_type environment w.today none (some title)
  match cto.result with
  | .error e => ⟨.error e, cto.trace, cto.events⟩
  | .ok testOpt =>
    match testOpt with
    | none =>
      ⟨.ok ⟨false, none, none, "Failed to create test", none⟩, cto.trace, cto.events⟩
    | some test =>
      if test.pyFalsy then
        ⟨.ok ⟨false, none, none, "Failed to create test", none⟩, cto.trace, cto.events⟩
      else
        match test.get "id" with
        | none => ⟨.error "KeyError: id", cto.trace, cto.events⟩
        | some tid =>
          let upo := upload_findings w tid report_file scan_type close_old_findings
                       push_to_jira (some engagement_id) product_id product_name
          match upo.result with
          | .error e => ⟨.error e, cto.trace ++ upo.trace, cto.events ++ upo.events⟩
          | .ok importOpt =>
            match importOpt with
            | none =>
              ⟨.ok ⟨false, some tid, none, "Created test but failed to import findings", none⟩,
               cto.trace ++ upo.trace, cto.events ++ upo.events⟩
            | some imp =>
              if imp.pyFalsy then
                ⟨.ok ⟨false, some tid, none, "Created test but failed to import findings", none⟩,
                 cto.trace ++ upo.trace, cto.events ++ upo.events⟩
              else
                match imp.get "id" with
                | none => ⟨.error "KeyError: id", cto.trace ++ upo.trace, cto.events ++ upo.events⟩
                | some iid =>
                  match test.get "title" with
                  | none =>
                    ⟨.error "KeyError: title", cto.trace ++ upo.trace, cto.events ++ upo.events⟩
                  | some ttl =>
                    ⟨.ok ⟨true, some tid, some iid,
                       "Successfully created test and imported findings", some ttl⟩,
                     cto.trace ++ upo.trace, cto.events ++ upo.events⟩

/-- The findings list the threshold checker iterates:
`findings_data.get('results', [])`. -/
def resultsOf (findings_data : Json) : List Json :=
  match findings_data.get "results" with
  | some (.arr xs) => xs
  | some _ => []
  | none => []

/-- Python truthiness of a JSON value. -/
def pyTruthy (j : Json) : Bool := !j.pyFalsy

/-- The client-side false-positive test from the counting loop in
`check_thresholds`: `finding.get('false_p', False)` is truthy. -/
def isFalsePositive (finding : Json) : Bool :=
  pyTruthy (finding.getD "false_p" (Json.bool false))

/-- One iteration of the severity counting loop of `check_thresholds`:
false positives are skipped, then critical, high and medium are tallied
from the lower-cased severity field. -/
def count_step (acc : Nat × Nat × Nat) (finding : Json) : Nat × Nat × Nat :=
  let severity := pyLower (getStr finding "severity")
  if isFalsePositive finding then acc
  else if severity == "critical" then (acc.1 + 1, acc.2.1, acc.2.2)
  else if severity == "high" then (acc.1, acc.2.1 + 1, acc.2.2)
  else if severity == "medium" then (acc.1, acc.2.1, acc.2.2 + 1)
  else acc

/-- The severity counting loop of `check_thresholds` (inlined in the
source). -/
def count_severities (results : List Json) : Nat × Nat × Nat :=
  results.foldl count_step (0, 0, 0)

/-- The threshold comparison of `check_thresholds` (inlined in the
source): the three rules run in the fixed order critical, high, medium,
each violated rule appends one reason, and no rule short-circuits. -/
def threshold_verdict (critical_count high_count medium_count : Nat) :
    Bool × List String :=
  let failed := false
  let failure_reasons : List String := []
  let p1 := if critical_count > 0
    then (true, failure_reasons ++
      ["Found " ++ toString critical_count ++ " critical findings (threshold: 0)"])
    else (failed, failure_reasons)
  let p2 := if high_count > 2
    then (true, p1.2 ++ ["Found " ++ toString high_count ++ " high findings (threshold: 2)"])
    else p1
  let p3 := if medium_count > 10
    then (true, p2.2 ++ ["Found " ++ toString medium_count ++ " medium findings (threshold: 10)"])
    else p2
  p3

/-- `check_thresholds` from evalution.py: counts the severities of the
non-false-positive findings and evaluates the fixed threshold policy,
returning the failed flag and the ordered failure reasons. -/
def check_thresholds (findings_data : Json) : Bool × List String :=
  let counts := count_severities (resultsOf findings_data)
  threshold_verdict counts.1 counts.2.1 counts.2.2

/-- `get_findings` from evalution.py: one GET of the findings page with
limit 1000, the server-side false-positive exclusion, and the optional
product filter; transport errors and non-2xx statuses exit the process. -/
def get_findings (w : World) (product_id : Option Int) : Outcome Json :=
  let params0 := [("limit", Json.num 1000), ("false_p", Json.bool false)]
  let params := params0 ++ (match product_id with
    | some p => if p != 0 then [("test__engagement__product", Json.num p)] else []
    | none => [])
  let result : Except String Json :=
    match w.http (Request.getFindings params) with
    | .exn _ => .error "SystemExit: 1"
    | .ok r =>
      if 400 ≤ r.status then .error "SystemExit: 1"
      else
        match r.body with
        | some j => .ok j
        | none => .error "JSONDecodeError"
  ⟨result, [Request.getFindings params], []⟩

/-! ## Characterization of the severity counting loop -/

/-- A finding counted under severity `sev` by the loop of
`check_thresholds`: not a false positive, and its lower-cased severity
field equals `sev`. -/
def countedSeverity (sev : String) (finding : Json) : Bool :=
  !isFalsePositive finding && (pyLower (getStr finding "severity") == sev)

theorem count_severities_aux (xs : List Json) (a b c : Nat) :
    xs.foldl count_step (a, b, c) =
      (a + xs.countP (countedSeverity "critical"),
       b + xs.countP (countedSeverity "high"),
       c + xs.countP (countedSeverity "medium")) := by
  induction xs generalizing a b c with
  | nil => simp
  | cons x t ih =>
    simp only [List.foldl_cons, List.countP_cons]
    by_cases hfp : isFalsePositive x
    · have hstep : count_step (a, b, c) x = (a, b, c) := by
        simp [count_step, hfp]
      rw [hstep, ih]
      simp [countedSeverity, hfp]
      try omega
    · by_cases h1 : pyLower (getStr x "severity") = "critical"
      · have hstep : count_step (a, b, c) x = (a + 1, b, c) := by
          simp [count_step, hfp, h1]
        rw [hstep, ih]
        simp [countedSeverity, hfp, h1]
        try omega
      · by_cases h2 : pyLower (getStr x "severity") = "high"
        · have hstep : count_step (a, b, c) x = (a, b + 1, c) := by
            simp [count_step, hfp, h1, h2]
          rw [hstep, ih]
          simp [countedSeverity, hfp, h1, h2]
          try omega
        · by_cases h3 : pyLower (getStr x "severity") = "medium"
          · have hstep : count_step (a, b, c) x = (a, b, c + 1) := by
              simp [count_step, hfp, h1, h2, h3]
            rw [hstep, ih]
            simp [countedSeverity, hfp, h1, h2, h3]
            try omega
          · have hstep : count_step (a, b, c) x = (a, b, c) := by
              simp [count_step, hfp, h1, h2, h3]
            rw [hstep, ih]
            simp [countedSeverity, hfp, h1, h2, h3]

/-- The counting loop computes exactly the number of non-false-positive
findings of each gated severity. -/
theorem count_severities_eq (xs : List Json) :
    count_severities xs =
      (xs.countP (countedSeverity "critical"),
       xs.countP (countedSeverity "high"),
       xs.countP (countedSeverity "medium")) := by
  simpa using count_severities_aux xs 0 0 0

/-- The number of counted critical findings. -/
def criticalCount (fd : Json) : Nat :=
  (resultsOf fd).countP (countedSeverity "critical")

/-- The number of counted high findings. -/
def highCount (fd : Json) : Nat :=
  (resultsOf fd).countP (countedSeverity "high")

/-- The number of counted medium findings. -/
def mediumCount (fd : Json) : Nat :=
  (resultsOf fd).countP (countedSeverity "medium")

/-! ## Claim C4: threshold rules, order, and scenarios -/

/-- A findings page built from a list of finding records. -/
def mkFindingsPage (xs : List Json) : Json := Json.obj [("results", Json.arr xs)]

/-- A finding record with a severity and a false-positive flag. -/
def mkFinding (sev : String) (fp : Bool) : Json :=
  Json.obj [("severity", Json.str sev), ("false_p", Json.bool fp)]

/-- Scenario page: 0 critical, 2 high, 10 medium, 0 false positives. -/
def fdPass : Json := mkFindingsPage
  (List.replicate 2 (mkFinding "High" false) ++ List.replicate 10 (mkFinding "Medium" false))

/-- Scenario page: 1 critical, 0 high, 0 medium. -/
def fdOneCritical : Json := mkFindingsPage [mkFinding "Critical" false]

/-- Scenario page: 0 critical, 3 high, 11 medium. -/
def fdHighMedium : Json := mkFindingsPage
  (List.replicate 3 (mkFinding "High" false) ++ List.replicate 11 (mkFinding "Medium" false))

/-- C4: `check_thresholds` evaluates the three rules in the fixed order
critical, high, medium without short-circuiting; critical count above 0,
high count above 2 and medium count above 10 each fail and each violated
rule appends exactly one reason; the page with 0 critical, 2 high and
10 medium findings passes, 1 critical finding fails with exactly one
reason, and 3 high with 11 medium findings fails with exactly the two
reasons high then medium. -/
theorem c4_threshold_rules :
    (∀ fd : Json,
      check_thresholds fd =
        (decide (0 < criticalCount fd) || decide (2 < highCount fd) ||
           decide (10 < mediumCount fd),
         (if 0 < criticalCount fd then
            ["Found " ++ toString (criticalCount fd) ++ " critical findings (threshold: 0)"]
          else []) ++
         (if 2 < highCount fd then
            ["Found " ++ toString (highCount fd) ++ " high findings (threshold: 2)"]
          else []) ++
         (if 10 < mediumCount fd then
            ["Found " ++ toString (mediumCount fd) ++ " medium findings (threshold: 10)"]
          else []))) ∧
    check_thresholds fdPass = (false, []) ∧
    check_thresholds fdOneCritical = (true, ["Found 1 critical findings (threshold: 0)"]) ∧
    check_thresholds fdHighMedium =
      (true, ["Found 3 high findings (threshold: 2)",
              "Found 11 medium findings (threshold: 10)"]) := by
  refine ⟨?_, rfl, rfl, rfl⟩
  intro fd
  have h := count_severities_eq (resultsOf fd)
  simp only [check_thresholds, h, threshold_verdict, criticalCount, highCount, mediumCount]
  by_cases h1 : 0 < (resultsOf fd).countP (countedSeverity "critical") <;>
    by_cases h2 : 2 < (resultsOf fd).countP (countedSeverity "high") <;>
      by_cases h3 : 10 < (resultsOf fd).countP (countedSeverity "medium") <;>
        simp [h1, h2, h3]

/-! ## Claim C5: false positives excluded from every count -/

/-- C5: every finding whose false-positive flag is truthy is excluded
from all severity counts by the client-side per-record check, whatever
its severity: the verdict over a findings page equals the verdict over
the page with the false positives removed.  In addition, the findings
fetch always issues its single request with the server-side filter
false_p=False among the query parameters. -/
theorem c5_false_positive_exclusion :
    (∀ xs : List Json,
      check_thresholds (mkFindingsPage xs) =
        check_thresholds (mkFindingsPage (xs.filter (fun f => !isFalsePositive f)))) ∧
    (∀ (w : World) (product_id : Option Int), ∃ ps,
      (get_findings w product_id).trace = [Request.getFindings ps] ∧
      ("false_p", Json.bool false) ∈ ps) := by
  constructor
  · intro xs
    have hres : ∀ ys : List Json, resultsOf (mkFindingsPage ys) = ys := by
      intro ys; rfl
    have hcnt : ∀ sev : String,
        (xs.filter (fun f => !isFalsePositive f)).countP (countedSeverity sev) =
          xs.countP (countedSeverity sev) := by
      intro sev
      rw [List.countP_filter]
      congr 1
      funext f
      simp [countedSeverity]
      tauto
    simp only [check_thresholds, count_severities_eq, hres, hcnt]
  · intro w product_id
    match product_id with
    | none => exact ⟨_, rfl, by simp⟩
    | some p => exact ⟨_, rfl, by simp [List.mem_append]⟩

/-! ## Claim C9: the failed flag is equivalent to a nonempty reason list -/

theorem threshold_verdict_failed_iff (c h m : Nat) :
    (threshold_verdict c h m).1 = true ↔ (threshold_verdict c h m).2 ≠ [] := by
  by_cases h1 : 0 < c <;> by_cases h2 : 2 < h <;> by_cases h3 : 10 < m <;>
    simp [threshold_verdict, h1, h2, h3]

/-- C9: for every findings input the failed flag of the gate verdict is
true exactly when the list of failure reasons is nonempty. -/
theorem c9_failed_iff_reasons (fd : Json) :
    (check_thresholds fd).1 = true ↔ (check_thresholds fd).2 ≠ [] := by
  simp only [check_thresholds]
  exact threshold_verdict_failed_iff _ _ _

/-- A world whose oracle answers every request with an empty 200 response;
used to instantiate theorems quantified over worlds. -/
def wAllOk : World :=
  { http := fun _ => .ok ⟨200, "", none⟩,
    isfile := fun _ => true,
    today := "2026-01-01" }

/-! ## Claim C10: a resolved id of 0 is treated as a resolution failure -/

/-- C10: when the environment reference resolves to the numeric id 0
(the string "0" or the integer 0), the resolver returns 0 but
`create_test` treats the result as a resolution failure because of the
Python truthiness check: it returns None, logs the environment-not-found
error, and issues no test-creation request. -/
theorem c10_zero_id_resolution_failure (w : World) (engagement_id n : Int)
    (target_start : String) :
    get_environment_id w (.int 0) = ⟨.ok (some 0), [], []⟩ ∧
    get_environment_id w (.str "0") = ⟨.ok (some 0), [], []⟩ ∧
    create_test w engagement_id (.int n) (.int 0) target_start none none =
      ⟨.ok none, [], [LogEvent.envNotFound (.int 0)]⟩ ∧
    create_test w engagement_id (.int n) (.str "0") target_start none none =
      ⟨.ok none, [], [LogEvent.envNotFound (.str "0")]⟩ := by
  refine ⟨rfl, rfl, rfl, rfl⟩

/-! ## Claim C6: numeric references bypass the lookup -/

/-- C6: a reference that is an integer, or an all-digits string, resolves
to its integer value without issuing any resource-list request: the
environment resolver returns it directly with an empty trace, and
`create_test` places a numeric test type reference into the payload
unchanged, issuing only the test-creation POST and no test-type listing
request. -/
theorem c6_numeric_reference_bypass (w : World) (n : Int) (s : String)
    (hs : isdigit s = true) (engagement_id k m : Int) (hk : ¬ k = 0)
    (target_start : String) :
    get_environment_id w (.int n) = ⟨.ok (some n), [], []⟩ ∧
    get_environment_id w (.str s) = ⟨.ok (some (strToInt s)), [], []⟩ ∧
    (create_test w engagement_id (.str s) (.int k) target_start none none).trace =
      [Request.postTest
        [("engagement", Json.num engagement_id), ("test_type", Json.str s),
         ("environment", Json.num k), ("target_start", Json.str target_start),
         ("target_end", Json.str target_start),
         ("title", Json.str (s ++ " test on " ++ target_start))]] ∧
    (create_test w engagement_id (.int m) (.int k) target_start none none).trace =
      [Request.postTest
        [("engagement", Json.num engagement_id), ("test_type", Json.num m),
         ("environment", Json.num k), ("target_start", Json.str target_start),
         ("target_end", Json.str target_start),
         ("title", Json.str (toString m ++ " test on " ++ target_start))]] := by
  refine ⟨rfl, ?_, ?_, ?_⟩
  · simp [get_environment_id, hs]
  · simp [create_test, get_environment_id, hs, hk, StrOrInt.toJson, StrOrInt.format]
  · simp [create_test, get_environment_id, hk, StrOrInt.toJson, StrOrInt.format]

/-- Witness for C6 at concrete inputs. -/
theorem c6_numeric_reference_bypass_witness :
    get_environment_id wAllOk (.int 5) = ⟨.ok (some 5), [], []⟩ ∧
    get_environment_id wAllOk (.str "42") = ⟨.ok (some 42), [], []⟩ ∧
    (create_test wAllOk 2 (.str "42") (.int 1) "2026-01-01" none none).trace =
      [Request.postTest
        [("engagement", Json.num 2), ("test_type", Json.str "42"),
         ("environment", Json.num 1), ("target_start", Json.str "2026-01-01"),
         ("target_end", Json.str "2026-01-01"),
         ("title", Json.str "42 test on 2026-01-01")]] ∧
    (create_test wAllOk 2 (.int 7) (.int 1) "2026-01-01" none none).trace =
      [Request.postTest
        [("engagement", Json.num 2), ("test_type", Json.num 7),
         ("environment", Json.num 1), ("target_start", Json.str "2026-01-01"),
         ("target_end", Json.str "2026-01-01"),
         ("title", Json.str "7 test on 2026-01-01")]] :=
  c6_numeric_reference_bypass wAllOk 5 "42" (by decide) 2 1 7 (by decide) "2026-01-01"

/-! ## Claim C8: empty resource list -/

/-- A world whose environment listing succeeds with an empty result set. -/
def wEmptyEnvs : World :=
  { http := fun r =>
      match r with
      | .getEnvironments => .ok ⟨200, "", some (Json.obj [("results", Json.arr [])])⟩
      | _ => .ok ⟨200, "", none⟩,
    isfile := fun _ => true,
    today := "2026-01-01" }

/-- C8 counterexample: with an empty listed environment set, resolution of
the numeric string "5" returns 5, not null — the numeric branch precedes
the empty-list check, so the claim "returns null regardless of input"
fails. -/
theorem c8_counterexample_numeric_input_empty_list :
    (get_environment_id wEmptyEnvs (.str "5")).result = .ok (some 5) ∧
    (get_environment_id wEmptyEnvs (.str "5")).result ≠ .ok none := by
  refine ⟨rfl, ?_⟩
  intro h
  rw [show (get_environment_id wEmptyEnvs (.str "5")).result = .ok (some 5) from rfl] at h
  simp at h

/-- C8 amended: for a name (non-digit) reference, resolution over an empty
listed resource set returns null, and `create_test` then fails the
operation before issuing any mutating request. -/
theorem c8_amended_empty_list_null (w : World) (s : String) (hs : isdigit s = false)
    (henv : get_environments w = ⟨.ok [], [Request.getEnvironments], []⟩)
    (engagement_id n : Int) (target_start : String) :
    get_environment_id w (.str s) = ⟨.ok none, [Request.getEnvironments], []⟩ ∧
    create_test w engagement_id (.int n) (.str s) target_start none none =
      ⟨.ok none, [Request.getEnvironments], [LogEvent.envNotFound (.str s)]⟩ := by
  have h1 : get_environment_id w (.str s) = ⟨.ok none, [Request.getEnvironments], []⟩ := by
    simp [get_environment_id, hs, henv]
  exact ⟨h1, by simp [create_test, h1]⟩

/-- Witness for C8 amended at concrete inputs. -/
theorem c8_amended_empty_list_null_witness :
    get_environment_id wEmptyEnvs (.str "Staging") =
      ⟨.ok none, [Request.getEnvironments], []⟩ ∧
    create_test wEmptyEnvs 4 (.int 2) (.str "Staging") "2026-01-01" none none =
      ⟨.ok none, [Request.getEnvironments], [LogEvent.envNotFound (.str "Staging")]⟩ :=
  c8_amended_empty_list_null wEmptyEnvs "Staging" (by decide) rfl 4 2 "2026-01-01"

/-! ## Claim C1: default-on-miss fallback -/

/-- A world listing two test types, none of them named "ZAP Scan". -/
def wTwoTestTypes : World :=
  { http := fun r =>
      match r with
      | .getTestTypes => .ok ⟨200, "", some (Json.obj [("results", Json.arr
          [Json.obj [("name", Json.str "Burp Scan"), ("id", Json.num 7)],
           Json.obj [("name", Json.str "Other"), ("id", Json.num 9)]])])⟩
      | _ => .ok ⟨200, "", none⟩,
    isfile := fun _ => true,
    today := "2026-01-01" }

/-- C1 counterexample: a test type name with no case-insensitive match
among a nonempty listed set resolves to None with no warning, not to the
first listed id 7 — the first-resource fallback exists only for the
environment kind. -/
theorem c1_counterexample_test_type_no_fallback :
    (get_test_type_id wTwoTestTypes "ZAP Scan").result = .ok none ∧
    (get_test_type_id wTwoTestTypes "ZAP Scan").result ≠ .ok (some 7) ∧
    (get_test_type_id wTwoTestTypes "ZAP Scan").events = [] := by
  refine ⟨rfl, ?_, rfl⟩
  intro h
  rw [show (get_test_type_id wTwoTestTypes "ZAP Scan").result = .ok none from rfl] at h
  simp at h

/-- C1 amended: for the environment kind, a name reference with no
case-insensitive match among a nonempty listed set resolves to the id of
the first listed environment and emits the fallback warning; for the test
type kind, the same situation resolves to None with no fallback and no
warning. -/
theorem c1_amended_fallback_policy (w : World) (s : String) (hs : isdigit s = false)
    (env0 : Json) (rest : List Json)
    (henv : get_environments w = ⟨.ok (env0 :: rest), [Request.getEnvironments], []⟩)
    (hmiss : (env0 :: rest).find? (fun env => pyLower (getStr env "name") == pyLower s) = none)
    (tname : String) (tts : List Json)
    (htt : get_test_types w = ⟨.ok tts, [Request.getTestTypes], []⟩)
    (hmiss2 : tts.find? (fun tt => pyLower (getStr tt "name") == pyLower tname) = none) :
    get_environment_id w (.str s) =
      ⟨.ok (getId env0), [Request.getEnvironments],
       [LogEvent.envFallback s (getStr env0 "name") (getId env0)]⟩ ∧
    get_test_type_id w tname = ⟨.ok none, [Request.getTestTypes], []⟩ := by
  constructor
  · simp [get_environment_id, hs, henv, hmiss]
  · simp [get_test_type_id, htt, hmiss2]

/-- A world listing one environment and one test type, matching neither
"Staging" nor "ZAP Scan". -/
def wOneEach : World :=
  { http := fun r =>
      match r with
      | .getEnvironments => .ok ⟨200, "", some (Json.obj [("results", Json.arr
          [Json.obj [("name", Json.str "Production"), ("id", Json.num 3)]])])⟩
      | .getTestTypes => .ok ⟨200, "", some (Json.obj [("results", Json.arr
          [Json.obj [("name", Json.str "API Test"), ("id", Json.num 1)]])])⟩
      | _ => .ok ⟨200, "", none⟩,
    isfile := fun _ => true,
    today := "2026-01-01" }

/-- Witness for C1 amended at concrete inputs. -/
theorem c1_amended_fallback_policy_witness :
    get_environment_id wOneEach (.str "Staging") =
      ⟨.ok (some 3), [Request.getEnvironments],
       [LogEvent.envFallback "Staging" "Production" (some 3)]⟩ ∧
    get_test_type_id wOneEach "ZAP Scan" = ⟨.ok none, [Request.getTestTypes], []⟩ := by
  have h := c1_amended_fallback_policy wOneEach "Staging" (by decide)
    (Json.obj [("name", Json.str "Production"), ("id", Json.num 3)]) [] rfl rfl
    "ZAP Scan" [Json.obj [("name", Json.str "API Test"), ("id", Json.num 1)]] rfl rfl
  exact h

/-! ## Claim C2: transport exceptions at the orchestrator boundary -/

/-- A world whose test-creation POST raises a transport exception. -/
def wCreateBoom : World :=
  { http := fun r =>
      match r with
      | .postTest _ => .exn "connection refused"
      | _ => .ok ⟨200, "", none⟩,
    isfile := fun _ => true,
    today := "2026-01-01" }

/-- C2 counterexample: a transport exception raised by the test-creation
POST propagates out of `scan_and_import` instead of being converted into
a structured result — the create and listing calls are not wrapped in
try, only the upload POSTs are. -/
theorem c2_counterexample_create_exception_propagates :
    (scan_and_import wCreateBoom 1 (.int 2) "report.xml" "ZAP Scan" (.int 3)
        false false none none none none).result = .error "connection refused" := rfl

/-- C2 amended: a transport exception raised by the upload POST — on the
first attempt or on the retry — is caught below the orchestrator boundary
and converted into a structured failure (None, hence a failure result),
while a transport exception raised by the test-creation POST or by the
environment-listing GET propagates out of the orchestrator. -/
theorem c2_amended_upload_exceptions_contained
    (w : World) (test_id : Json) (report_file scan_type : String)
    (cof ptj : Bool) (product_id : Option Int) (product_name : Option String) (e : String)
    (hf : w.isfile report_file = true)
    (hup : ∀ d, w.http (Request.postImportScan d report_file 1) = .exn e)
    (w3 : World) (tid3 : Json) (rf3 st3 : String) (cof3 ptj3 : Bool)
    (r1 : HttpResponse) (e3 : String)
    (hf3 : w3.isfile rf3 = true)
    (h31 : ∀ d, w3.http (Request.postImportScan d rf3 1) = .ok r1)
    (h31a : ¬ r1.status = 200) (h31b : ¬ r1.status = 201)
    (hmk3 : strContains r1.text "product_name parameter missing" = true)
    (h32 : ∀ d, w3.http (Request.postImportScan d rf3 2) = .exn e3)
    (w2 : World) (eng tt env : Int) (henv : ¬ env = 0) (rf2 st2 : String) (e2 : String)
    (hct : ∀ d, w2.http (Request.postTest d) = .exn e2)
    (w4 : World) (eng4 n4 : Int) (s4 : String) (hs4 : isdigit s4 = false)
    (rf4 st4 : String) (e4 : String)
    (hg : w4.http Request.getEnvironments = .exn e4) :
    (upload_findings w test_id report_file scan_type cof ptj none product_id
        product_name).result = .ok none ∧
    (upload_findings w3 tid3 rf3 st3 cof3 ptj3 none none none).result = .ok none ∧
    (scan_and_import w2 eng (.int tt) rf2 st2 (.int env) false false none none
        none none).result = .error e2 ∧
    (scan_and_import w4 eng4 (.int n4) rf4 st4 (.str s4) false false none none
        none none).result = .error e4 := by
  refine ⟨?_, ?_, ?_, ?_⟩
  · simp [upload_findings, hf, hup]
  · simp [upload_findings, hf3, h31, h31a, h31b, hmk3, h32, pyFalsyOptJson]
  · simp [scan_and_import, create_test, get_environment_id, hct, henv]
  · simp [scan_and_import, create_test, get_environment_id, get_environments, hs4, hg]

/-- A world whose upload POST raises a transport exception. -/
def wUploadBoom : World :=
  { http := fun r =>
      match r with
      | .postImportScan _ _ _ => .exn "read timed out"
      | .postTest _ => .exn "connection reset"
      | _ => .ok ⟨200, "", none⟩,
    isfile := fun _ => true,
    today := "2026-01-01" }

/-- A world where the first upload attempt is rejected with the
missing-product-name marker and the retry POST raises a transport
exception. -/
def wRetryBoom : World :=
  { http := fun r =>
      match r with
      | .postImportScan _ _ 1 => .ok ⟨400, "product_name parameter missing", none⟩
      | .postImportScan _ _ _ => .exn "broken pipe"
      | _ => .ok ⟨200, "", none⟩,
    isfile := fun _ => true,
    today := "2026-01-01" }

/-- A world whose environment-listing GET raises a transport exception. -/
def wListBoom : World :=
  { http := fun r =>
      match r with
      | .getEnvironments => .exn "name resolution failed"
      | _ => .ok ⟨200, "", none⟩,
    isfile := fun _ => true,
    today := "2026-01-01" }

/-- Witness for C2 amended at concrete inputs. -/
theorem c2_amended_upload_exceptions_contained_witness :
    (upload_findings wUploadBoom (Json.num 9) "report.xml" "ZAP Scan" false false
        none none none).result = .ok none ∧
    (upload_findings wRetryBoom (Json.num 9) "report.xml" "ZAP Scan" false false
        none none none).result = .ok none ∧
    (scan_and_import wUploadBoom 1 (.int 2) "report.xml" "ZAP Scan" (.int 3)
        false false none none none none).result = .error "connection reset" ∧
    (scan_and_import wListBoom 1 (.int 2) "report.xml" "ZAP Scan" (.str "Staging")
        false false none none none none).result = .error "name resolution failed" :=
  c2_amended_upload_exceptions_contained wUploadBoom (Json.num 9) "report.xml"
    "ZAP Scan" false false none none "read timed out" rfl (fun _ => rfl)
    wRetryBoom (Json.num 9) "report.xml" "ZAP Scan" false false
    ⟨400, "product_name parameter missing", none⟩ "broken pipe"
    rfl (fun _ => rfl) (by decide) (by decide) rfl (fun _ => rfl)
    wUploadBoom 1 2 3 (by decide) "report.xml" "ZAP Scan" "connection reset"
    (fun _ => rfl)
    wListBoom 1 2 "Staging" (by decide) "report.xml" "ZAP Scan"
    "name resolution failed" rfl

/-! ## Claim C7: shape of the orchestrator result -/

/-- A world whose test-creation POST is rejected with a 400 status. -/
def wCreateRejected : World :=
  { http := fun r =>
      match r with
      | .postTest _ => .ok ⟨400, "bad request", none⟩
      | _ => .ok ⟨200, "", none⟩,
    isfile := fun _ => true,
    today := "2026-01-01" }

/-- C7 counterexample: when test creation fails, the result dict of
`scan_and_import` is built without a test_id key, so not every invocation
returns a result containing success, testId and message. -/
theorem c7_counterexample_missing_test_id :
    (scan_and_import wCreateRejected 1 (.int 2) "report.xml" "ZAP Scan" (.int 3)
        false false none none none none).result =
      .ok ⟨false, none, none, "Failed to create test", none⟩ ∧
    (ScanImportResult.test_id
      ⟨false, none, none, "Failed to create test", none⟩) = none := ⟨rfl, rfl⟩

/-- C7 amended: when test creation succeeds, the orchestrator result
carries success, test_id and message, with test_id the created test id;
success is true exactly when the final upload attempt returned an import
record, and on upload failure the result keeps success false with the
created test id. -/
theorem c7_amended_result_shape
    (w : World) (tid iid : Int) (ttl : String) (rf st : String)
    (hf : w.isfile rf = true)
    (hct : ∀ d, w.http (Request.postTest d) =
      .ok ⟨201, "", some (Json.obj [("id", Json.num tid), ("title", Json.str ttl)])⟩)
    (hup : ∀ d, w.http (Request.postImportScan d rf 1) =
      .ok ⟨201, "", some (Json.obj [("id", Json.num iid)])⟩)
    (wf : World) (tid2 : Int) (ttl2 : String) (rf2 st2 : String) (txt : String)
    (hf2 : wf.isfile rf2 = true)
    (hct2 : ∀ d, wf.http (Request.postTest d) =
      .ok ⟨201, "", some (Json.obj [("id", Json.num tid2), ("title", Json.str ttl2)])⟩)
    (hup2 : ∀ d, wf.http (Request.postImportScan d rf2 1) = .ok ⟨400, txt, none⟩)
    (hmk : strContains txt "product_name parameter missing" = false) :
    (scan_and_import w 0 (.int 2) rf st (.int 3) false false none none
        none none).result =
      .ok ⟨true, some (Json.num tid), some (Json.num iid),
        "Successfully created test and imported findings", some (Json.str ttl)⟩ ∧
    (scan_and_import wf 0 (.int 2) rf2 st2 (.int 3) false false none none
        none none).result =
      .ok ⟨false, some (Json.num tid2), none,
        "Created test but failed to import findings", none⟩ := by
  constructor
  · simp [scan_and_import, create_test, get_environment_id, upload_findings,
      hf, hct, hup, Json.pyFalsy, Json.get, lookupField]
  · simp [scan_and_import, create_test, get_environment_id, upload_findings,
      hf2, hct2, hup2, hmk, Json.pyFalsy, Json.get, lookupField]

/-- A world where test creation and upload both succeed. -/
def wRoundTrip : World :=
  { http := fun r =>
      match r with
      | .postTest _ => .ok ⟨201, "", some (Json.obj
          [("id", Json.num 42), ("title", Json.str "ZAP scan")])⟩
      | .postImportScan _ _ _ => .ok ⟨201, "", some (Json.obj [("id", Json.num 77)])⟩
      | _ => .ok ⟨200, "", none⟩,
    isfile := fun _ => true,
    today := "2026-01-01" }

/-- A world where test creation succeeds and the upload is rejected with
text that does not hold the missing-product-name marker. -/
def wUploadRejected : World :=
  { http := fun r =>
      match r with
      | .postTest _ => .ok ⟨201, "", some (Json.obj
          [("id", Json.num 43), ("title", Json.str "ZAP scan")])⟩
      | .postImportScan _ _ _ => .ok ⟨400, "invalid scan type", none⟩
      | _ => .ok ⟨200, "", none⟩,
    isfile := fun _ => true,
    today := "2026-01-01" }

/-- Witness for C7 amended at concrete inputs. -/
theorem c7_amended_result_shape_witness :
    (scan_and_import wRoundTrip 0 (.int 2) "report.xml" "ZAP Scan" (.int 3)
        false false none none none none).result =
      .ok ⟨true, some (Json.num 42), some (Json.num 77),
        "Successfully created test and imported findings", some (Json.str "ZAP scan")⟩ ∧
    (scan_and_import wUploadRejected 0 (.int 2) "report.xml" "ZAP Scan" (.int 3)
        false false none none none none).result =
      .ok ⟨false, some (Json.num 43), none,
        "Created test but failed to import findings", none⟩ :=
  c7_amended_result_shape wRoundTrip 42 77 "ZAP scan" "report.xml" "ZAP Scan"
    rfl (fun _ => rfl) (fun _ => rfl)
    wUploadRejected 43 "ZAP scan" "report.xml" "ZAP Scan" "invalid scan type"
    rfl (fun _ => rfl) (fun _ => rfl) rfl

/-! ## Claim C3: missing-product-name retry policy -/

/-- C3: when the first upload attempt fails with a response whose text
holds the missing-product-name marker and no product name is set, the
orchestrator retries exactly once, with the product name set to the scan
type string and the report file re-opened (file handle 2); the trace
holds exactly two upload requests, and when the retry also fails the
overall result is a failure carrying the id of the already-created
test. -/
theorem c3_retry_policy (w : World) (tid : Int) (ttl : String) (rf st : String)
    (r1 r2 : HttpResponse)
    (hf : w.isfile rf = true)
    (hct : ∀ d, w.http (Request.postTest d) =
      .ok ⟨201, "", some (Json.obj [("id", Json.num tid), ("title", Json.str ttl)])⟩)
    (h1 : ∀ d, w.http (Request.postImportScan d rf 1) = .ok r1)
    (h1a : ¬ r1.status = 200) (h1b : ¬ r1.status = 201)
    (hmk : strContains r1.text "product_name parameter missing" = true)
    (h2 : ∀ d, w.http (Request.postImportScan d rf 2) = .ok r2)
    (h2a : ¬ r2.status = 200) (h2b : ¬ r2.status = 201) :
    (scan_and_import w 0 (.int 5) rf st (.int 3) false false none none
        none none).result =
      .ok ⟨false, some (Json.num tid), none,
        "Created test but failed to import findings", none⟩ ∧
    (scan_and_import w 0 (.int 5) rf st (.int 3) false false none none
        none none).trace =
      [Request.postTest
         [("engagement", Json.num 0), ("test_type", Json.num 5),
          ("environment", Json.num 3), ("target_start", Json.str w.today),
          ("target_end", Json.str w.today), ("title", Json.str "5 scan")],
       Request.postImportScan
         [("scan_type", Json.str st), ("test", Json.num tid),
          ("active", Json.bool true), ("verified", Json.bool false),
          ("close_old_findings", Json.bool false), ("push_to_jira", Json.bool false)]
         rf 1,
       Request.postImportScan
         [("scan_type", Json.str st), ("test", Json.num tid),
          ("active", Json.bool true), ("verified", Json.bool false),
          ("close_old_findings", Json.bool false), ("push_to_jira", Json.bool false),
          ("product_name", Json.str st)]
         rf 2] := by
  constructor
  · simp [scan_and_import, create_test, get_environment_id, upload_findings,
      hf, hct, h1, h1a, h1b, hmk, h2, h2a, h2b, Json.pyFalsy, Json.get, lookupField,
      pyFalsyOptJson, StrOrInt.format, StrOrInt.toJson]
  · simp [scan_and_import, create_test, get_environment_id, upload_findings,
      hf, hct, h1, h1a, h1b, hmk, h2, h2a, h2b, Json.pyFalsy, Json.get, lookupField,
      pyFalsyOptJson, StrOrInt.format, StrOrInt.toJson]
    rw [show toString (5 : Int) ++ " scan" = "5 scan" from rfl]
    simp

/-- A world where the first upload attempt fails with the
missing-product-name marker and the re-opened retry fails as well. -/
def wRetryBothFail : World :=
  { http := fun r =>
      match r with
      | .postTest _ => .ok ⟨201, "", some (Json.obj
          [("id", Json.num 42), ("title", Json.str "T")])⟩
      | .postImportScan _ _ 1 => .ok ⟨400, "product_name parameter missing", none⟩
      | .postImportScan _ _ _ => .ok ⟨400, "still rejected", none⟩
      | _ => .ok ⟨200, "", none⟩,
    isfile := fun _ => true,
    today := "2026-02-03" }

/-- Witness for C3 at concrete inputs. -/
theorem c3_retry_policy_witness :
    (scan_and_import wRetryBothFail 0 (.int 5) "report.xml" "ZAP Scan" (.int 3)
        false false none none none none).result =
      .ok ⟨false, some (Json.num 42), none,
        "Created test but failed to import findings", none⟩ ∧
    (scan_and_import wRetryBothFail 0 (.int 5) "report.xml" "ZAP Scan" (.int 3)
        false false none none none none).trace =
      [Request.postTest
         [("engagement", Json.num 0), ("test_type", Json.num 5),
          ("environment", Json.num 3), ("target_start", Json.str wRetryBothFail.today),
          ("target_end", Json.str wRetryBothFail.today), ("title", Json.str "5 scan")],
       Request.postImportScan
         [("scan_type", Json.str "ZAP Scan"), ("test", Json.num 42),
          ("active", Json.bool true), ("verified", Json.bool false),
          ("close_old_findings", Json.bool false), ("push_to_jira", Json.bool false)]
         "report.xml" 1,
       Request.postImportScan
         [("scan_type", Json.str "ZAP Scan"), ("test", Json.num 42),
          ("active", Json.bool true), ("verified", Json.bool false),
          ("close_old_findings", Json.bool false), ("push_to_jira", Json.bool false),
          ("product_name", Json.str "ZAP Scan")]
         "report.xml" 2] :=
  c3_retry_policy wRetryBothFail 42 "T" "report.xml" "ZAP Scan"
    ⟨400, "product_name parameter missing", none⟩ ⟨400, "still rejected", none⟩
    rfl (fun _ => rfl) (fun _ => rfl) (by decide) (by decide) rfl
    (fun _ => rfl) (by decide) (by decide)

end DefectDojo
